import Mathlib

/-!
Verification development for the tmandry/accessibility repository.

The embedding covers the typed attribute binding layer of
src/accessibility/src/attribute.rs (descriptor registry, accessor surface,
diagnostic renderer debug_all) and the printing visitor PrintyBoi of
src/aq/src/main.rs.  Parts of the repository that sit outside those two
files (the element handle in ui_element.rs, the boxed-value codec in
value.rs, and the TreeWalker engine) are modelled from the specification
and carry a doc comment saying so.
-/

/- Geometry carried by boxed AXValue payloads (core_graphics_types).
Coordinates are abstracted to integers; no claim depends on their
arithmetic. -/

structure CGPoint where
  x : Int
  y : Int
  deriving DecidableEq

structure CGSize where
  width : Int
  height : Int
  deriving DecidableEq

structure CGRect where
  origin : CGPoint
  rectSize : CGSize
  deriving DecidableEq

/-- The payload of a boxed AXValue: one of the geometry kinds. -/
inductive GeomPayload where
  | point (p : CGPoint)
  | geomSize (s : CGSize)
  | rect (r : CGRect)
  deriving DecidableEq

/-- The native type tag of a boxed AXValue (AXValueGetType). -/
inductive AXValueTag where
  | cgPoint
  | cgSize
  | cgRect
  deriving DecidableEq

/-- The tag actually carried by a payload. -/
def GeomPayload.tag : GeomPayload → AXValueTag
  | .point _ => .cgPoint
  | .geomSize _ => .cgSize
  | .rect _ => .cgRect

/-- A native, runtime-typed value as handed back by the accessibility
service (CFType).  Element references carry their id and, for rendering,
the role string their own Debug output would show. -/
inductive CFTypeVal where
  | string (s : String)
  | boolean (b : Bool)
  | number (n : Int)
  | element (elemId : Nat) (role : String)
  | array (elems : List CFTypeVal)
  | axValue (payload : GeomPayload)
  | other (tagId : Nat)

/-- The error taxonomy of the crate (spec section 7). -/
inductive Error where
  | notSupported
  | unexpectedType
  | notSettable
  | ax (code : Int)
  deriving DecidableEq

/-- Modelled from the spec: the element handle (ui_element.rs is outside
src/).  `fetch` is the native copy-attribute-value call, `names` the
native copy-attribute-names call, `store` the native set-attribute call;
all are keyed only by the native string key (spec sections 4.3 and 6). -/
structure AXUIElement where
  elemId : Nat
  fetch : String → Except Error CFTypeVal
  names : Except Error (List String)
  store : String → CFTypeVal → Except Error Unit

/-- The statically requested value shape of a typed read, one per Rust
type that appears in the define_attributes! table. -/
inductive AttrType where
  | cfString
  | cfBoolean
  | cfType
  | cfArrayOfType
  | cfArrayOfElement
  | uiElement
  | axValueOf (tag : AXValueTag)
  deriving DecidableEq

/-- Modelled from the spec: the typed downcast performed by
AXUIElement::attribute (outside src/): it succeeds exactly when the native
runtime type matches the statically requested one and fails with
UnexpectedType otherwise, never coercing (spec sections 3, 4.3, 7).  For an
AXValue-typed request the downcast only checks that the value is a boxed
AXValue; the payload tag is checked later by AXValue::value. -/
def downcast : AttrType → CFTypeVal → Except Error CFTypeVal
  | .cfString, v@(.string _) => .ok v
  | .cfBoolean, v@(.boolean _) => .ok v
  | .cfType, v => .ok v
  | .cfArrayOfType, v@(.array _) => .ok v
  | .cfArrayOfElement, v@(.array elems) =>
      if elems.all (fun x => match x with | .element _ _ => true | _ => false)
      then .ok v else .error .unexpectedType
  | .uiElement, v@(.element _ _) => .ok v
  | .axValueOf _, v@(.axValue _) => .ok v
  | _, _ => .error .unexpectedType

/-- Modelled from the spec: AXUIElement::attribute (outside src/): fetch
the native value for the descriptor's key, then downcast it to the
requested shape (spec section 4.3). -/
def attributeRead (e : AXUIElement) (ty : AttrType) (key : String) : Except Error CFTypeVal :=
  match e.fetch key with
  | .error er => .error er
  | .ok v => downcast ty v

/-- Modelled from the spec: AXValue::value payload extraction (value.rs is
outside src/): the boxed payload tag is checked against the requested
geometry kind and extraction fails with a type-mismatch decode error when
it differs (spec section 4.1). -/
def axValueDecode (want : AXValueTag) (p : GeomPayload) : Except Error GeomPayload :=
  if p.tag = want then .ok p else .error .unexpectedType

/-- Outcome of running a piece of Rust code that may return, error, or
panic. -/
inductive POutcome (α : Type) where
  | ok (a : α)
  | err (e : Error)
  | panicked (msg : String)

/-- The getter generated by the accessor! AXValue arm
(attribute.rs lines 82-86): read the boxed value through the generic
typed read, then extract the payload with .expect, i.e. panic with the
message wrong type when the payload tag does not match. -/
def axValueGetter (e : AXUIElement) (want : AXValueTag) (key : String) : POutcome GeomPayload :=
  match attributeRead e (.axValueOf want) key with
  | .error er => .err er
  | .ok (.axValue p) =>
      match axValueDecode want p with
      | .ok q => .ok q
      | .error _ => .panicked ("wrong type")
  | .ok _ => .err .unexpectedType

/-- The frame getter stamped out by define_attributes!
(attribute.rs lines 208 and 82-86). -/
def frameGetter (e : AXUIElement) : POutcome GeomPayload :=
  axValueGetter e .cgRect ("AXFrame")

/-- The position getter (attribute.rs lines 218-223 and 82-86). -/
def positionGetter (e : AXUIElement) : POutcome GeomPayload :=
  axValueGetter e .cgPoint ("AXPosition")

/-- The size getter (attribute.rs line 230 and 82-86). -/
def sizeGetter (e : AXUIElement) : POutcome GeomPayload :=
  axValueGetter e .cgSize ("AXSize")

/-- AXAttribute (attribute.rs line 28): a native key (CFString) together
with a phantom compile-time type tag. -/
structure AXAttribute (α : Type) where
  cfstring : String

/-- AXAttribute::as_CFString (attribute.rs lines 40-45). -/
def AXAttribute.as_CFString (a : AXAttribute α) : String := a.cfstring

/-- AXAttribute::new (attribute.rs lines 190-194): an ad hoc descriptor
built from an arbitrary discovered name. -/
def AXAttribute.new (name : String) : AXAttribute CFTypeVal := ⟨name⟩

/-- One entry of the define_attributes! table: semantic name, native key
constant, declared value shape, and whether a setter is declared. -/
structure AttrSpec where
  name : String
  key : String
  ty : AttrType
  hasSetter : Bool
  deriving DecidableEq

/-- The constructor stamped out by constructor! (attribute.rs lines 47-53)
for a registry entry: it wraps that entry's native key constant. -/
def wellKnownAttr (a : AttrSpec) : AXAttribute CFTypeVal := ⟨a.key⟩

/-- Modelled from the spec: AXUIElement::set_attribute (outside src/)
encodes and writes through the descriptor's native key only
(spec section 4.3). -/
def setAttribute (e : AXUIElement) (attr : AXAttribute α) (v : CFTypeVal) : Except Error Unit :=
  e.store attr.cfstring v

/-- Generic typed read through a descriptor: AXUIElement::attribute uses
only the descriptor's native key (attribute.rs line 89 together with the
element handle contract). -/
def attributeByDescriptor (e : AXUIElement) (ty : AttrType) (attr : AXAttribute α) :
    Except Error CFTypeVal :=
  attributeRead e ty attr.cfstring

/-- The define_attributes! registry (attribute.rs lines 196-247), in its
declaration order: role and subrole first, then the rest in alphabetical
order of semantic name.  Native key constants are the accessibility_sys
kAX...Attribute strings. -/
def registry : List AttrSpec := [
  ⟨"role", "AXRole", .cfString, false⟩,
  ⟨"subrole", "AXSubrole", .cfString, false⟩,
  ⟨"allowed_values", "AXAllowedValues", .cfArrayOfType, false⟩,
  ⟨"children", "AXChildren", .cfArrayOfElement, false⟩,
  ⟨"contents", "AXContents", .uiElement, false⟩,
  ⟨"description", "AXDescription", .cfString, false⟩,
  ⟨"element_busy", "AXElementBusy", .cfBoolean, false⟩,
  ⟨"enabled", "AXEnabled", .cfBoolean, false⟩,
  ⟨"focused", "AXFocused", .cfBoolean, false⟩,
  ⟨"frame", "AXFrame", .axValueOf .cgRect, false⟩,
  ⟨"help", "AXHelp", .cfString, false⟩,
  ⟨"identifier", "AXIdentifier", .cfString, false⟩,
  ⟨"label_value", "AXLabelValue", .cfString, false⟩,
  ⟨"main", "AXMain", .cfBoolean, true⟩,
  ⟨"max_value", "AXMaxValue", .cfType, false⟩,
  ⟨"min_value", "AXMinValue", .cfType, false⟩,
  ⟨"minimized", "AXMinimized", .cfBoolean, false⟩,
  ⟨"parent", "AXParent", .uiElement, false⟩,
  ⟨"placeholder_value", "AXPlaceholderValue", .cfString, false⟩,
  ⟨"position", "AXPosition", .axValueOf .cgPoint, true⟩,
  ⟨"role_description", "AXRoleDescription", .cfString, false⟩,
  ⟨"selected_children", "AXSelectedChildren", .cfArrayOfElement, false⟩,
  ⟨"size", "AXSize", .axValueOf .cgSize, true⟩,
  ⟨"title", "AXTitle", .cfString, false⟩,
  ⟨"top_level_ui_element", "AXTopLevelUIElement", .uiElement, false⟩,
  ⟨"value", "AXValue", .cfType, true⟩,
  ⟨"value_description", "AXValueDescription", .cfString, false⟩,
  ⟨"value_increment", "AXValueIncrement", .cfType, false⟩,
  ⟨"visible_children", "AXVisibleChildren", .cfArrayOfElement, false⟩,
  ⟨"window", "AXWindow", .uiElement, false⟩,
  ⟨"windows", "AXWindows", .cfArrayOfElement, false⟩]

/-- The rendering a debug_field! arm writes for one field
(attribute.rs lines 94-142): element values and element arrays print via
their role strings one level deep (spec section 4.4 for the Debug output
of AXUIElement, which is outside src/), booleans print as a plain boolean
token, boxed geometry prints its decoded payload, everything else prints
its generic native value. -/
inductive Rendered where
  | text (s : String)
  | boolTok (b : Bool)
  | elemRole (role : String)
  | elemRoles (roles : List String)
  | geom (g : GeomPayload)
  | generic (v : CFTypeVal)

/-- The role string one level deep shown for an element reference inside
an element array (the Forward helper, attribute.rs lines 132-142). -/
def elemRoleOf : CFTypeVal → Option String
  | .element _ r => some r
  | _ => none

/-- One debug_field! expansion (attribute.rs lines 94-123): read the
attribute through the generated accessor for the entry's declared type and
render according to the macro arm that type selects.  Only the AXValue
accessors can panic. -/
def fieldVal (e : AXUIElement) (a : AttrSpec) : POutcome Rendered :=
  match a.ty with
  | .axValueOf t =>
      match axValueGetter e t a.key with
      | .ok g => .ok (.geom g)
      | .err er => .err er
      | .panicked m => .panicked m
  | .cfBoolean =>
      match attributeRead e .cfBoolean a.key with
      | .ok (.boolean b) => .ok (.boolTok b)
      | .ok _ => .err .unexpectedType
      | .error er => .err er
  | .cfArrayOfElement =>
      match attributeRead e .cfArrayOfElement a.key with
      | .ok (.array elems) => .ok (.elemRoles (elems.filterMap elemRoleOf))
      | .ok _ => .err .unexpectedType
      | .error er => .err er
  | .uiElement =>
      match attributeRead e .uiElement a.key with
      | .ok (.element _ r) => .ok (.elemRole r)
      | .ok _ => .err .unexpectedType
      | .error er => .err er
  | .cfString =>
      match attributeRead e .cfString a.key with
      | .ok (.string s) => .ok (.text s)
      | .ok _ => .err .unexpectedType
      | .error er => .err er
  | _ =>
      match attributeRead e a.ty a.key with
      | .ok v => .ok (.generic v)
      | .error er => .err er

/-- True exactly when a run outcome is a panic. -/
def isPanicked : POutcome α → Bool
  | .panicked _ => true
  | _ => false

/-- The registered-attribute pass of debug_all (the expansion of
debug_field! over the whole table, attribute.rs line 170): each entry that
reads Ok is written as a field named by its semantic name, a failing read
is skipped, and a panic aborts the whole dump. -/
def runFields (e : AXUIElement) : List AttrSpec → Except String (List (String × Rendered))
  | [] => .ok []
  | a :: rest =>
      match fieldVal e a with
      | .panicked m => .error m
      | .err _ => runFields e rest
      | .ok r =>
          match runFields e rest with
          | .error m => .error m
          | .ok fs => .ok ((a.name, r) :: fs)

/-- The field emitted for one registry entry, if any. -/
def emitOf (e : AXUIElement) (a : AttrSpec) : Option (String × Rendered) :=
  match fieldVal e a with
  | .ok r => some (a.name, r)
  | _ => none

/-- The native keys of the registry entries actually emitted by the
registered-attribute pass on a given element. -/
def step2Keys (e : AXUIElement) : List String :=
  registry.filterMap (fun a =>
    match fieldVal e a with
    | .ok _ => some a.key
    | _ => none)

/-- The dynamically-discovered section of debug_all
(attribute.rs lines 175-183): keep the names equal to no registered native
key, read each kept name generically, and emit the ones that read Ok,
named by their native key string. -/
def discoveredSection (e : AXUIElement) (ns : List String) : List (String × Rendered) :=
  (ns.filter (fun n => registry.all (fun a => n ≠ a.key))).filterMap (fun n =>
    match attributeRead e .cfType n with
    | .ok v => some (n, Rendered.generic v)
    | .error _ => none)

/-- Result of debug_all: the ordered field list, or a panic. -/
inductive DebugOutcome where
  | ok (fields : List (String × Rendered))
  | panicked (msg : String)

/-- debug_all (attribute.rs lines 167-185): emit every registered
attribute in registry order, then, if the dynamic name enumeration
succeeds, every discovered name that matches no registered key, with its
generically read value. -/
def debugAll (e : AXUIElement) : DebugOutcome :=
  match runFields e registry with
  | .error m => .panicked m
  | .ok fs =>
      match e.names with
      | .error _ => .ok fs
      | .ok ns => .ok (fs ++ discoveredSection e ns)

/- The aq printing visitor (src/aq/src/main.rs). -/

/-- The flow-control result of TreeVisitor::enter_element, as exercised by
this system (spec section 4.5). -/
inductive TreeWalkerFlow where
  | continueWalk
  | skipSubtree
  deriving DecidableEq

/-- The visitor state of PrintyBoi (main.rs lines 8-13): the level cell,
the maximum depth, and the indentation unit. -/
structure PrintyBoi where
  level : Nat
  maxDepth : Nat
  indent : String

/-- str::repeat as used for the indentation prefix (main.rs line 28). -/
def strRepeat (s : String) : Nat → String
  | 0 => ""
  | n + 1 => s ++ strRepeat s n

/-- element.role().unwrap_or_else with an empty string (main.rs line 29). -/
def roleOf (e : AXUIElement) : String :=
  match attributeRead e .cfString ("AXRole") with
  | .ok (.string s) => s
  | _ => ""

/-- element.children().map(len).unwrap_or(0) (main.rs line 38). -/
def childCount (e : AXUIElement) : Nat :=
  match attributeRead e .cfArrayOfElement ("AXChildren") with
  | .ok (.array elems) => elems.length
  | _ => 0

/-- One printed line of PrintyBoi, kept structured: the headline carries
the indent prefix, the role and the child count; an attribute line carries
the indent prefix, the native name and the generically read value. -/
inductive Line where
  | headline (pre : String) (role : String) (childCount : Nat)
  | attrLine (pre : String) (name : String) (value : CFTypeVal)

/-- The attribute listing loop of enter_element (main.rs lines 41-51):
skip the children key, print every other discovered name whose generic
read succeeds; a failing name enumeration prints nothing. -/
def attrLines (pre : String) (e : AXUIElement) : List Line :=
  match e.names with
  | .error _ => []
  | .ok ns => ns.filterMap (fun n =>
      if n = "AXChildren" then none
      else
        match attributeRead e .cfType n with
        | .ok v => some (.attrLine pre n v)
        | .error _ => none)

/-- The result of one enter_element call: the flow decision, the new value
of the level cell, and the lines printed during the call. -/
structure EnterResult where
  flow : TreeWalkerFlow
  level : Nat
  printed : List Line

/-- PrintyBoi::enter_element (main.rs lines 27-54): compute the indent
prefix and the role, bump the level cell, return SkipSubtree without
printing anything when the previous level has reached max_depth, otherwise
print the headline and the attribute listing and return Continue. -/
def enterElement (p : PrintyBoi) (e : AXUIElement) : EnterResult :=
  let pre := strRepeat p.indent p.level
  let role := roleOf e
  let newLevel := p.level + 1
  if p.maxDepth ≤ p.level then
    ⟨.skipSubtree, newLevel, []⟩
  else
    ⟨.continueWalk, newLevel, .headline pre role (childCount e) :: attrLines pre e⟩

/-- PrintyBoi::exit_element (main.rs lines 56-58): decrement the level
cell. -/
def exitElement (level : Nat) : Nat := level - 1

/-- A snapshot of the element tree the walker descends through: each node
carries the element handed to the visitor, whether the walker's own read
of the children attribute succeeds, and the child subtrees. -/
inductive UITree where
  | node (e : AXUIElement) (childrenReadOk : Bool) (kids : List UITree)

/-- One visitor callback occurrence in a walk, with the value of the level
cell at the moment enter_element is called. -/
inductive VisitEv where
  | enter (elemId : Nat) (levelAtCall : Nat)
  | exitEv (elemId : Nat)

mutual
/-- Modelled from the spec: TreeWalker::walk (outside src/): depth-first,
enter_element before the children, exit_element after them; Continue
descends into the children in order, SkipSubtree does not, and a failed
children read is treated as a leaf; exit_element is invoked
unconditionally (spec section 4.5).  The level cell of the PrintyBoi
visitor is threaded explicitly; the walk returns the final level and the
callback trace. -/
def walkNode (ind : String) (m lvl : Nat) : UITree → Nat × List VisitEv
  | .node e cok kids =>
      let r := enterElement ⟨lvl, m, ind⟩ e
      let sub :=
        match r.flow with
        | .continueWalk => if cok then walkList ind m r.level kids else (r.level, [])
        | .skipSubtree => (r.level, [])
      (exitElement sub.1, .enter e.elemId lvl :: (sub.2 ++ [.exitEv e.elemId]))
/-- Modelled from the spec: the walk of a list of sibling subtrees, in
native order, threading the visitor's level cell. -/
def walkList (ind : String) (m lvl : Nat) : List UITree → Nat × List VisitEv
  | [] => (lvl, [])
  | t :: ts =>
      let r1 := walkNode ind m lvl t
      let r2 := walkList ind m r1.1 ts
      (r2.1, r1.2 ++ r2.2)
end

/- Concrete elements used as witnesses. -/

/-- A button-like element: readable role and enabled flag, one discovered
attribute, everything else unsupported. -/
def elemBasic : AXUIElement :=
  ⟨1,
   fun k =>
     if k = "AXRole" then .ok (.string ("AXButton"))
     else if k = "AXEnabled" then .ok (.boolean true)
     else if k = "CustomTag" then .ok (.string ("X"))
     else .error .notSupported,
   .ok (["AXRole", "AXEnabled", "CustomTag"]),
   fun _ _ => .error .notSettable⟩

/-- An element whose frame attribute holds a boxed AXValue with a point
payload instead of a rectangle. -/
def elemBadFrame : AXUIElement :=
  ⟨2,
   fun k =>
     if k = "AXFrame" then .ok (.axValue (.point (⟨1, 2⟩)))
     else .error .notSupported,
   .error (.ax 0),
   fun _ _ => .error .notSettable⟩

/-- An element whose role attribute holds a number, so the typed role read
fails while the generic read succeeds, and whose name enumeration lists
the role key. -/
def elemRoleNum : AXUIElement :=
  ⟨3,
   fun k =>
     if k = "AXRole" then .ok (.number 7)
     else if k = "CustomTag" then .ok (.string ("X"))
     else .error .notSupported,
   .ok (["AXRole", "CustomTag"]),
   fun _ _ => .error .notSettable⟩

/-- An element on which every native call fails. -/
def elemNoRole : AXUIElement :=
  ⟨4, fun _ => .error .notSupported, .error (.ax 1), fun _ _ => .error .notSettable⟩

example : debugAll elemBasic =
    .ok ([(("role" : String), Rendered.text ("AXButton")),
          ("enabled", .boolTok true),
          ("CustomTag", .generic (.string ("X")))]) := rfl

example : debugAll elemBadFrame = .panicked ("wrong type") := rfl

example : debugAll elemRoleNum =
    .ok ([(("CustomTag" : String), Rendered.generic (.string ("X")))]) := rfl

example : debugAll elemNoRole = .ok ([]) := rfl

example : step2Keys elemRoleNum = [] := rfl

example : enterElement ⟨0, 0, (" ")⟩ elemBasic = ⟨.skipSubtree, 1, []⟩ := rfl

example : enterElement ⟨0, 2, (" ")⟩ elemBasic =
    ⟨.continueWalk, 1,
     [.headline ("") ("AXButton") 0,
      .attrLine ("") ("AXRole") (.string ("AXButton")),
      .attrLine ("") ("AXEnabled") (.boolean true),
      .attrLine ("") ("CustomTag") (.string ("X"))]⟩ := rfl

/- Helper lemmas shared by several claims. -/

/-- The level cell after enter_element is the old level plus one,
whichever flow is returned. -/
theorem enterElement_level (p : PrintyBoi) (e : AXUIElement) :
    (enterElement p e).level = p.level + 1 := by
  unfold enterElement
  by_cases h : p.maxDepth ≤ p.level <;> simp [h]

mutual
/-- Every walk of a subtree returns the visitor's level cell to the value
it had when the subtree was entered. -/
theorem walkNode_balance (ind : String) (m lvl : Nat) :
    ∀ t : UITree, (walkNode ind m lvl t).1 = lvl
  | .node e cok kids => by
      have hk := walkList_balance ind m ((enterElement ⟨lvl, m, ind⟩ e).level) kids
      cases hflow : (enterElement ⟨lvl, m, ind⟩ e).flow with
      | continueWalk =>
          cases cok with
          | false => simp [walkNode, hflow, enterElement_level, exitElement]
          | true => simp [walkNode, hflow, enterElement_level, exitElement, hk,
                          enterElement_level ⟨lvl, m, ind⟩ e ▸ hk]
      | skipSubtree => simp [walkNode, hflow, enterElement_level, exitElement]
/-- Every walk of a sibling list returns the visitor's level cell to the
value it had before the first sibling. -/
theorem walkList_balance (ind : String) (m lvl : Nat) :
    ∀ ts : List UITree, (walkList ind m lvl ts).1 = lvl
  | [] => by simp [walkList]
  | t :: ts => by
      have h1 := walkNode_balance ind m lvl t
      have h2 := walkList_balance ind m lvl ts
      simp [walkList, h1, h2]
end

/-- The trace of walking a sibling list is the concatenation of the traces
of walking each sibling, every one started from the same level. -/
theorem walkList_trace (ind : String) (m lvl : Nat) (ts : List UITree) :
    (walkList ind m lvl ts).2 = (ts.map (fun t => (walkNode ind m lvl t).2)).join := by
  induction ts with
  | nil => simp [walkList]
  | cons t ts ih => simp [walkList, walkNode_balance, ih]

/-- A successful registered-attribute pass emits exactly the entries whose
read succeeds, in table order. -/
theorem runFields_ok (e : AXUIElement) :
    ∀ (l : List AttrSpec) (fs : List (String × Rendered)),
      runFields e l = .ok fs → fs = l.filterMap (emitOf e) := by
  intro l
  induction l with
  | nil =>
      intro fs h
      simp [runFields] at h
      simp [h.symm]
  | cons a rest ih =>
      intro fs h
      cases hf : fieldVal e a with
      | panicked m => simp [runFields, hf] at h
      | err er =>
          rw [runFields, hf] at h
          simp [List.filterMap_cons, emitOf, hf, ih fs h]
      | ok r =>
          rw [runFields, hf] at h
          cases hr : runFields e rest with
          | error m => rw [hr] at h; simp at h
          | ok fs2 =>
              rw [hr] at h
              simp at h
              simp [h.symm, List.filterMap_cons, emitOf, hf, ih fs2 hr]

/-- Every entry of the discovered section is named by one of the
dynamically enumerated attribute names. -/
theorem discovered_mem (e : AXUIElement) (ns : List String)
    (x : String × Rendered) (hx : x ∈ discoveredSection e ns) : x.1 ∈ ns := by
  unfold discoveredSection at hx
  rcases List.mem_filterMap.mp hx with ⟨n, hn, hsome⟩
  have hn2 := (List.mem_filter.mp hn).1
  cases hread : attributeRead e .cfType n with
  | ok v =>
      rw [hread] at hsome
      cases hsome
      exact hn2
  | error er => rw [hread] at hsome; cases hsome

/-- C3: the visitor's level cell is incremented exactly once on every
enter_element call, whichever flow it returns, and decremented exactly
once on every exit_element call; consequently every balanced walk returns
the level cell to its initial value, and the walk of a sibling list runs
every sibling from the same level, so siblings are always entered at
equal depth. -/
theorem c3_enter_exit_symmetry :
    (∀ (p : PrintyBoi) (e : AXUIElement), (enterElement p e).level = p.level + 1)
    ∧ (∀ lvl : Nat, 0 < lvl → exitElement lvl + 1 = lvl)
    ∧ (∀ (ind : String) (m lvl : Nat) (t : UITree), (walkNode ind m lvl t).1 = lvl)
    ∧ (∀ (ind : String) (m lvl : Nat) (ts : List UITree),
        (walkList ind m lvl ts).2 = (ts.map (fun t => (walkNode ind m lvl t).2)).join) :=
  ⟨enterElement_level,
   fun _ h => Nat.sub_add_cancel h,
   fun ind m lvl t => walkNode_balance ind m lvl t,
   walkList_trace⟩

/-- A leaf witness tree. -/
def treeLeaf : UITree := .node elemBasic true []

/-- A two-child witness tree, the second child with a failing children
read. -/
def treeTwo : UITree :=
  .node elemBasic true [.node elemNoRole true [], .node elemRoleNum false []]

theorem c3_enter_exit_symmetry_witness :
    (enterElement ⟨0, 1, (" ")⟩ elemBasic).level = (0 : Nat) + 1
    ∧ exitElement 2 + 1 = 2
    ∧ (walkNode (" ") 1 0 treeTwo).1 = 0
    ∧ (walkList (" ") 1 0 ([treeLeaf, treeTwo])).2 =
        (([treeLeaf, treeTwo]).map (fun t => (walkNode (" ") 1 0 t).2)).join :=
  ⟨c3_enter_exit_symmetry.1 ⟨0, 1, (" ")⟩ elemBasic,
   c3_enter_exit_symmetry.2.1 2 (by decide),
   c3_enter_exit_symmetry.2.2.1 (" ") 1 0 treeTwo,
   c3_enter_exit_symmetry.2.2.2 (" ") 1 0 ([treeLeaf, treeTwo])⟩

/-- C1: debug_all emits the registered attributes in the registry's fixed
priority order: role first, then subrole, then every remaining registered
attribute in alphabetical order of semantic name, and every registered
attribute is emitted before any dynamically discovered one. -/
theorem c1_registered_order :
    registry.map AttrSpec.name =
      ["role", "subrole", "allowed_values", "children", "contents", "description",
       "element_busy", "enabled", "focused", "frame", "help", "identifier",
       "label_value", "main", "max_value", "min_value", "minimized", "parent",
       "placeholder_value", "position", "role_description", "selected_children",
       "size", "title", "top_level_ui_element", "value", "value_description",
       "value_increment", "visible_children", "window", "windows"]
    ∧ List.Chain' (fun a b : String => a.toList < b.toList)
        ((registry.map AttrSpec.name).drop 2)
    ∧ ∀ (e : AXUIElement) (fs : List (String × Rendered)), debugAll e = .ok fs →
        ∃ ds, fs = registry.filterMap (emitOf e) ++ ds
          ∧ ∀ x ∈ ds, ∃ ns, e.names = .ok ns ∧ x.1 ∈ ns := by
  refine ⟨rfl, ?_, ?_⟩
  · have h2 : (registry.map AttrSpec.name).drop 2 =
        ["allowed_values", "children", "contents", "description",
         "element_busy", "enabled", "focused", "frame", "help", "identifier",
         "label_value", "main", "max_value", "min_value", "minimized", "parent",
         "placeholder_value", "position", "role_description", "selected_children",
         "size", "title", "top_level_ui_element", "value", "value_description",
         "value_increment", "visible_children", "window", "windows"] := rfl
    rw [h2]
    simp only [List.chain'_cons, List.chain'_singleton, and_true]
    decide
  intro e fs h
  unfold debugAll at h
  cases hrun : runFields e registry with
  | error m => rw [hrun] at h; cases h
  | ok fs0 =>
      rw [hrun] at h
      have hfs0 := runFields_ok e registry fs0 hrun
      cases hnames : e.names with
      | error er =>
          rw [hnames] at h
          cases h
          exact ⟨[], by simp [hfs0], by simp⟩
      | ok ns =>
          rw [hnames] at h
          cases h
          exact ⟨discoveredSection e ns, by simp [hfs0],
                 fun x hx => ⟨ns, rfl, discovered_mem e ns x hx⟩⟩

theorem c1_registered_order_witness :
    ∃ ds, [(("role" : String), Rendered.text ("AXButton")),
           ("enabled", Rendered.boolTok true),
           ("CustomTag", Rendered.generic (.string ("X")))] =
        registry.filterMap (emitOf elemBasic) ++ ds
      ∧ ∀ x ∈ ds, ∃ ns, elemBasic.names = .ok ns ∧ x.1 ∈ ns :=
  c1_registered_order.2.2 elemBasic _ rfl

/-- C2 counterexample: with a maximum depth of 0 the root is entered (the
call happens and returns SkipSubtree) but nothing at all is printed, so it
is not the case that the visitor prints a role/child-count line for every
entered element. -/
theorem c2_skip_prints_nothing :
    (enterElement ⟨0, 0, (" ")⟩ elemBasic).flow = TreeWalkerFlow.skipSubtree
    ∧ (enterElement ⟨0, 0, (" ")⟩ elemBasic).printed = [] :=
  ⟨rfl, rfl⟩

/-- C2 amended: enter_element returns SkipSubtree exactly for elements
entered at level at least max_depth; a limit of 0 walks only the root's
enter/exit pair and descends into no children; an element entered below
the limit prints the headline carrying its role and child count, followed
by the attribute listing, while an element entered at or beyond the limit
prints nothing. -/
theorem c2_amended_depth_gate :
    (∀ (p : PrintyBoi) (e : AXUIElement),
        (enterElement p e).flow = TreeWalkerFlow.skipSubtree ↔ p.maxDepth ≤ p.level)
    ∧ (∀ (ind : String) (e : AXUIElement) (cok : Bool) (kids : List UITree),
        walkNode ind 0 0 (.node e cok kids) = (0, [.enter e.elemId 0, .exitEv e.elemId]))
    ∧ (∀ (p : PrintyBoi) (e : AXUIElement), p.level < p.maxDepth →
        (enterElement p e).printed =
          .headline (strRepeat p.indent p.level) (roleOf e) (childCount e)
            :: attrLines (strRepeat p.indent p.level) e)
    ∧ (∀ (p : PrintyBoi) (e : AXUIElement), p.maxDepth ≤ p.level →
        (enterElement p e).printed = []) := by
  refine ⟨?_, ?_, ?_, ?_⟩
  · intro p e
    unfold enterElement
    by_cases h : p.maxDepth ≤ p.level <;> simp [h]
  · intro ind e cok kids
    simp [walkNode, enterElement, exitElement]
  · intro p e h
    unfold enterElement
    simp [Nat.not_le.mpr h]
  · intro p e h
    unfold enterElement
    simp [h]

theorem c2_amended_depth_gate_witness :
    ((enterElement ⟨0, 2, (" ")⟩ elemBasic).flow = TreeWalkerFlow.skipSubtree ↔ (2 : Nat) ≤ 0)
    ∧ walkNode (" ") 0 0 (.node elemBasic true ([.node elemNoRole true []])) =
        (0, [.enter elemBasic.elemId 0, .exitEv elemBasic.elemId])
    ∧ (enterElement ⟨0, 2, (" ")⟩ elemBasic).printed =
        .headline (strRepeat (" ") 0) (roleOf elemBasic) (childCount elemBasic)
          :: attrLines (strRepeat (" ") 0) elemBasic
    ∧ (enterElement ⟨5, 2, (" ")⟩ elemBasic).printed = [] :=
  ⟨c2_amended_depth_gate.1 ⟨0, 2, (" ")⟩ elemBasic,
   c2_amended_depth_gate.2.1 (" ") elemBasic true ([.node elemNoRole true []]),
   c2_amended_depth_gate.2.2.1 ⟨0, 2, (" ")⟩ elemBasic (by decide),
   c2_amended_depth_gate.2.2.2 ⟨5, 2, (" ")⟩ elemBasic (by decide)⟩

/-- C4 counterexample: on an element whose frame attribute holds a boxed
AXValue with a point payload, the payload tag does not match the requested
rectangle, the spec-level decode fails with a type-mismatch error, and the
frame getter panics with the message wrong type instead of returning an
error result. -/
theorem c4_frame_mismatch_panics :
    axValueDecode .cgRect (.point (⟨1, 2⟩)) = .error .unexpectedType
    ∧ frameGetter elemBadFrame = .panicked ("wrong type")
    ∧ ∀ er, frameGetter elemBadFrame ≠ POutcome.err er :=
  ⟨rfl, rfl, fun _ h => POutcome.noConfusion h⟩

/-- C4 amended: when the native value's runtime type does not match the
statically requested one, the generic typed read fails with UnexpectedType
and never yields a value; the geometry-boxed getters surface a value that
is not a boxed AXValue as an UnexpectedType error, but a boxed AXValue
whose payload tag mismatches the requested geometry kind makes them panic
with the message wrong type instead of returning an error result. -/
theorem c4_amended_mismatch_outcomes :
    (∀ (e : AXUIElement) (ty : AttrType) (key : String) (v : CFTypeVal),
        e.fetch key = .ok v → downcast ty v = .error .unexpectedType →
        attributeRead e ty key = .error .unexpectedType)
    ∧ (∀ (e : AXUIElement) (t : AXValueTag) (key : String) (v : CFTypeVal),
        e.fetch key = .ok v → downcast (.axValueOf t) v = .error .unexpectedType →
        axValueGetter e t key = .err .unexpectedType)
    ∧ (∀ (e : AXUIElement) (t : AXValueTag) (key : String) (p : GeomPayload),
        e.fetch key = .ok (.axValue p) → p.tag ≠ t →
        axValueGetter e t key = .panicked ("wrong type")) := by
  refine ⟨?_, ?_, ?_⟩
  · intro e ty key v hv hd
    unfold attributeRead
    rw [hv]
    exact hd
  · intro e t key v hv hd
    have hr : attributeRead e (.axValueOf t) key = .error .unexpectedType := by
      unfold attributeRead; rw [hv]; exact hd
    unfold axValueGetter
    rw [hr]
  · intro e t key p hv ht
    have hr : attributeRead e (.axValueOf t) key = .ok (.axValue p) := by
      unfold attributeRead; rw [hv]; rfl
    unfold axValueGetter
    rw [hr]
    simp [axValueDecode, ht]

theorem c4_amended_mismatch_outcomes_witness :
    attributeRead elemBadFrame .cfString ("AXFrame") = .error .unexpectedType
    ∧ axValueGetter elemBasic .cgRect ("AXRole") = .err .unexpectedType
    ∧ axValueGetter elemBadFrame .cgRect ("AXFrame") = .panicked ("wrong type") :=
  ⟨c4_amended_mismatch_outcomes.1 elemBadFrame .cfString ("AXFrame")
     (.axValue (.point (⟨1, 2⟩))) rfl rfl,
   c4_amended_mismatch_outcomes.2.1 elemBasic .cgRect ("AXRole")
     (.string ("AXButton")) rfl rfl,
   c4_amended_mismatch_outcomes.2.2 elemBadFrame .cgRect ("AXFrame")
     (.point (⟨1, 2⟩)) rfl (by decide)⟩

/-- C5 counterexample: on an element whose role attribute holds a number,
the registered pass emits nothing (so no key is emitted in step 2), the
dynamic enumeration lists the role key and a custom name, and the role
key reads fine generically, yet debug_all's discovered pass still excludes
the role key: the exclusion is by membership in the registry, not by what
step 2 actually emitted. -/
theorem c5_excludes_unemitted_registry_key :
    step2Keys elemRoleNum = []
    ∧ elemRoleNum.names = .ok (["AXRole", "CustomTag"])
    ∧ attributeRead elemRoleNum .cfType ("AXRole") = .ok (.number 7)
    ∧ debugAll elemRoleNum =
        .ok ([(("CustomTag" : String), Rendered.generic (.string ("X")))]) :=
  ⟨rfl, rfl, rfl, rfl⟩

/-- C5 amended: the discovered pass excludes exactly those enumerated
names whose native key equals the key of some registered attribute,
whether or not that attribute was emitted in step 2; every remaining
discovered name whose generic read succeeds is emitted with its
generically decoded value. -/
theorem c5_amended_registry_filter :
    (∀ (ns : List String) (n : String), n ∈ ns →
        ((n ∈ ns.filter (fun n2 => registry.all (fun a => n2 ≠ a.key))) ↔
          ∀ a ∈ registry, n ≠ a.key))
    ∧ (∀ (e : AXUIElement) (ns : List String) (fs : List (String × Rendered)),
        e.names = .ok ns → runFields e registry = .ok fs →
        debugAll e = .ok (fs ++ discoveredSection e ns))
    ∧ (∀ (e : AXUIElement) (ns : List String) (n : String) (v : CFTypeVal),
        e.names = .ok ns → n ∈ ns → (∀ a ∈ registry, n ≠ a.key) →
        attributeRead e .cfType n = .ok v →
        (n, Rendered.generic v) ∈ discoveredSection e ns) := by
  refine ⟨?_, ?_, ?_⟩
  · intro ns n hn
    simp [List.mem_filter, hn, List.all_eq_true]
  · intro e ns fs hns hrun
    unfold debugAll
    rw [hrun, hns]
  · intro e ns n v _ hn hreg hread
    unfold discoveredSection
    refine List.mem_filterMap.mpr ⟨n, ?_, ?_⟩
    · exact List.mem_filter.mpr ⟨hn, by simp [List.all_eq_true]; exact hreg⟩
    · rw [hread]

theorem c5_amended_registry_filter_witness :
    ((("CustomTag" : String) ∈
        (["AXRole", "CustomTag"] : List String).filter
          (fun n2 => registry.all (fun a => n2 ≠ a.key))) ↔
      ∀ a ∈ registry, ("CustomTag" : String) ≠ a.key)
    ∧ debugAll elemRoleNum =
        .ok ([] ++ discoveredSection elemRoleNum (["AXRole", "CustomTag"]))
    ∧ ((("CustomTag" : String), Rendered.generic (.string ("X"))) ∈
        discoveredSection elemRoleNum (["AXRole", "CustomTag"])) :=
  ⟨c5_amended_registry_filter.1 (["AXRole", "CustomTag"]) ("CustomTag") (by decide),
   c5_amended_registry_filter.2.1 elemRoleNum (["AXRole", "CustomTag"]) [] rfl rfl,
   c5_amended_registry_filter.2.2 elemRoleNum (["AXRole", "CustomTag"]) ("CustomTag")
     (.string ("X")) rfl (by decide) (by decide) rfl⟩

/-- A registered attribute whose read fails with an error is skipped
without affecting the rest of the registered pass. -/
theorem runFields_skip (e : AXUIElement) (a : AttrSpec) (er : Error)
    (h : fieldVal e a = .err er) :
    ∀ l₁ l₂ : List AttrSpec, runFields e (l₁ ++ a :: l₂) = runFields e (l₁ ++ l₂) := by
  intro l₁
  induction l₁ with
  | nil => intro l₂; simp [runFields, h]
  | cons b l₁ ih =>
      intro l₂
      cases hb : fieldVal e b with
      | panicked m => simp [runFields, hb]
      | err e2 => simp [runFields, hb, ih l₂]
      | ok r => simp [runFields, hb, ih l₂]

/-- If no registered read panics, the registered pass succeeds. -/
theorem runFields_no_panic (e : AXUIElement) :
    ∀ l : List AttrSpec, (∀ a ∈ l, isPanicked (fieldVal e a) = false) →
      ∃ fs, runFields e l = .ok fs := by
  intro l
  induction l with
  | nil => intro _; exact ⟨[], rfl⟩
  | cons a rest ih =>
      intro h
      have ha := h a (by simp)
      rcases ih (fun b hb => h b (by simp [hb])) with ⟨fs, hfs⟩
      cases hf : fieldVal e a with
      | panicked m => rw [hf] at ha; simp [isPanicked] at ha
      | err e2 => exact ⟨fs, by unfold runFields; rw [hf]; exact hfs⟩
      | ok r => exact ⟨(a.name, r) :: fs, by unfold runFields; rw [hf, hfs]⟩

/-- C6 counterexample: the frame read of elemBadFrame fails (its boxed
payload tag mismatches, a type-mismatch decode error at spec level), yet
debug_all does not omit the field and render the rest of the dump: the
whole dump panics. -/
theorem c6_read_failure_can_panic :
    axValueDecode .cgRect (.point (⟨3, 4⟩)) = .error .unexpectedType
    ∧ isPanicked (fieldVal elemBadFrame
        (⟨"frame", "AXFrame", .axValueOf .cgRect, false⟩)) = true
    ∧ debugAll elemBadFrame = .panicked ("wrong type") :=
  ⟨rfl, rfl, rfl⟩

/-- C6 amended: a registered attribute whose accessor read returns an
error is silently omitted without affecting the rest of the registered
pass, and when no registered read panics debug_all returns a dump
successfully; a geometry-boxed attribute whose payload tag mismatches,
however, panics and aborts the whole dump rather than being omitted. -/
theorem c6_amended_error_omission :
    (∀ (e : AXUIElement) (a : AttrSpec) (er : Error), fieldVal e a = .err er →
        ∀ l₁ l₂ : List AttrSpec, runFields e (l₁ ++ a :: l₂) = runFields e (l₁ ++ l₂))
    ∧ (∀ e : AXUIElement, (∀ a ∈ registry, isPanicked (fieldVal e a) = false) →
        ∃ fs, debugAll e = .ok fs) := by
  constructor
  · exact fun e a er h => runFields_skip e a er h
  · intro e h
    rcases runFields_no_panic e registry h with ⟨fs, hfs⟩
    unfold debugAll
    rw [hfs]
    cases e.names with
    | error er => exact ⟨fs, rfl⟩
    | ok ns => exact ⟨fs ++ discoveredSection e ns, rfl⟩

theorem c6_amended_error_omission_witness :
    runFields elemBasic ([⟨"role", "AXRole", .cfString, false⟩] ++
        ⟨"subrole", "AXSubrole", .cfString, false⟩ :: []) =
      runFields elemBasic ([⟨"role", "AXRole", .cfString, false⟩] ++ [])
    ∧ ∃ fs, debugAll elemBasic = .ok fs :=
  ⟨c6_amended_error_omission.1 elemBasic ⟨"subrole", "AXSubrole", .cfString, false⟩
     .notSupported rfl ([⟨"role", "AXRole", .cfString, false⟩]) [],
   c6_amended_error_omission.2 elemBasic (by decide)⟩

/-- C7: the boolean-typed registry entries are exactly element_busy,
enabled, focused, main and minimized, and any of them that reads
successfully is rendered as a plain boolean token, not as the native
boxed representation. -/
theorem c7_bool_plain_token :
    ((registry.filter (fun a => a.ty = AttrType.cfBoolean)).map AttrSpec.name =
      ["element_busy", "enabled", "focused", "main", "minimized"])
    ∧ (∀ (e : AXUIElement) (a : AttrSpec) (b : Bool), a ∈ registry →
        a.ty = .cfBoolean → attributeRead e .cfBoolean a.key = .ok (.boolean b) →
        fieldVal e a = .ok (.boolTok b)) := by
  constructor
  · rfl
  · intro e a b _ hty hread
    unfold fieldVal
    rw [hty, hread]

theorem c7_bool_plain_token_witness :
    fieldVal elemBasic (⟨"enabled", "AXEnabled", .cfBoolean, false⟩) =
      .ok (.boolTok true) :=
  c7_bool_plain_token.2 elemBasic ⟨"enabled", "AXEnabled", .cfBoolean, false⟩ true
    (by decide) rfl rfl

/-- C8: descriptors are interchangeable by native key: for a registered
entry the ad hoc descriptor built by AXAttribute::new from its native key
carries the same native key as the well-known constructor's descriptor,
and reading or writing an element through two descriptors with equal
native keys produces identical results, since access uses only the native
key. -/
theorem c8_descriptor_interchangeable :
    (∀ a ∈ registry, (AXAttribute.new (wellKnownAttr a).cfstring).as_CFString =
        (wellKnownAttr a).as_CFString)
    ∧ (∀ (α β : Type) (e : AXUIElement) (ty : AttrType)
          (x : AXAttribute α) (y : AXAttribute β), x.cfstring = y.cfstring →
        attributeByDescriptor e ty x = attributeByDescriptor e ty y)
    ∧ (∀ (α β : Type) (e : AXUIElement) (x : AXAttribute α) (y : AXAttribute β)
          (v : CFTypeVal), x.cfstring = y.cfstring →
        setAttribute e x v = setAttribute e y v) := by
  refine ⟨fun a _ => rfl, ?_, ?_⟩
  · intro α β e ty x y h
    unfold attributeByDescriptor
    rw [h]
  · intro α β e x y v h
    unfold setAttribute
    rw [h]

theorem c8_descriptor_interchangeable_witness :
    (AXAttribute.new
        (wellKnownAttr ⟨"role", "AXRole", .cfString, false⟩).cfstring).as_CFString =
      (wellKnownAttr ⟨"role", "AXRole", .cfString, false⟩).as_CFString
    ∧ attributeByDescriptor elemBasic .cfString (AXAttribute.new ("AXRole")) =
        attributeByDescriptor elemBasic .cfString
          (wellKnownAttr ⟨"role", "AXRole", .cfString, false⟩)
    ∧ setAttribute elemBasic (AXAttribute.new ("AXRole")) (.string ("x")) =
        setAttribute elemBasic (wellKnownAttr ⟨"role", "AXRole", .cfString, false⟩)
          (.string ("x")) :=
  ⟨c8_descriptor_interchangeable.1 ⟨"role", "AXRole", .cfString, false⟩ (by decide),
   c8_descriptor_interchangeable.2.1 CFTypeVal CFTypeVal elemBasic .cfString
     (AXAttribute.new ("AXRole")) (wellKnownAttr ⟨"role", "AXRole", .cfString, false⟩) rfl,
   c8_descriptor_interchangeable.2.2 CFTypeVal CFTypeVal elemBasic
     (AXAttribute.new ("AXRole")) (wellKnownAttr ⟨"role", "AXRole", .cfString, false⟩)
     (.string ("x")) rfl⟩

/-- C9: enter_element never propagates an error (it is a total function of
the element snapshot); when the typed role read fails, the role is
rendered as the empty string while the flow decision, the level bump, the
child count and the attribute listing are computed exactly as for any
element, unaffected by the role failure. -/
theorem c9_role_failure_harmless :
    ∀ (p : PrintyBoi) (e : AXUIElement) (er : Error),
      attributeRead e .cfString ("AXRole") = .error er →
      roleOf e = ""
      ∧ (enterElement p e).flow =
          (if p.maxDepth ≤ p.level then TreeWalkerFlow.skipSubtree else .continueWalk)
      ∧ (enterElement p e).level = p.level + 1
      ∧ (p.level < p.maxDepth →
          (enterElement p e).printed =
            .headline (strRepeat p.indent p.level) ("") (childCount e)
              :: attrLines (strRepeat p.indent p.level) e) := by
  intro p e er h
  have hrole : roleOf e = "" := by unfold roleOf; rw [h]
  refine ⟨hrole, ?_, enterElement_level p e, ?_⟩
  · unfold enterElement
    by_cases hle : p.maxDepth ≤ p.level <;> simp [hle]
  · intro hlt
    unfold enterElement
    simp [Nat.not_le.mpr hlt, hrole]

theorem c9_role_failure_harmless_witness :
    roleOf elemNoRole = ""
    ∧ (enterElement ⟨0, 3, (" ")⟩ elemNoRole).flow =
        (if (3 : Nat) ≤ 0 then TreeWalkerFlow.skipSubtree else .continueWalk)
    ∧ (enterElement ⟨0, 3, (" ")⟩ elemNoRole).level = 0 + 1
    ∧ ((0 : Nat) < 3 →
        (enterElement ⟨0, 3, (" ")⟩ elemNoRole).printed =
          .headline (strRepeat (" ") 0) ("") (childCount elemNoRole)
            :: attrLines (strRepeat (" ") 0) elemNoRole) :=
  c9_role_failure_harmless ⟨0, 3, (" ")⟩ elemNoRole .notSupported rfl

/-- C10: when the dynamic attribute-name enumeration fails, debug_all ends
after the registered pass and still returns successfully, containing
exactly the registered fields and no discovered-attribute section. -/
theorem c10_names_failure_registered_only :
    ∀ (e : AXUIElement) (er : Error) (fs : List (String × Rendered)),
      e.names = .error er → runFields e registry = .ok fs →
      debugAll e = .ok fs := by
  intro e er fs hn hr
  unfold debugAll
  simp only [hr, hn]

theorem c10_names_failure_registered_only_witness :
    debugAll elemNoRole = .ok [] :=
  c10_names_failure_registered_only elemNoRole (.ax 1) [] rfl rfl
